import Mathlib

/-!
# MetaConnect real-time broker: shallow embedding and verification

This file embeds, in Lean 4, the real-time/room-broker core of the
MetaConnect repository:

* the Socket.IO connection handlers of `backend/server.js` (and the second
  server variant shipped in the repository), covering `authenticate`,
  `join_session`, `code_update`, `mark_read`, `direct_message` and the
  `disconnect` handler;
* the live-session HTTP controllers of
  `backend/controllers/collaborate/sessions.js`
  (`updateSessionStatus`, `updateCodeSnippet`, `joinSession`, `leaveSession`);
* the message HTTP controllers of `server/controllers/messages.js`
  (`getMessages`, `sendMessage`).

Stateful code is embedded as explicit state passing: each handler is a pure
function from the relevant store (a list of sessions or messages) and the
per-connection socket state to the updated store/socket plus the list of
emitted Socket.IO events.  The durable store round trip (`Message.create`,
`session.save`) may fail in the source; its outcome is a boolean parameter.
JWT verification is an external collaborator and is passed in as a function
`String → Option String` from token to user id.  Wall-clock timestamps that
only decorate payloads are omitted; `createdAt`/`endedAt` timestamps that
the code compares are kept as explicit `Int` parameters.
-/

/-- Lifecycle status of a live session (`LiveSession.status`). -/
inductive Status
  | scheduled
  | live
  | ended
deriving DecidableEq, Repr

/-- Parse of the `status` string accepted by `updateSessionStatus`
(`['scheduled', 'live', 'ended'].includes(status)`). -/
def parseStatus (s : String) : Option Status :=
  if s = "scheduled" then some Status.scheduled
  else if s = "live" then some Status.live
  else if s = "ended" then some Status.ended
  else none

/-- A live session document (the fields of the `LiveSession` model that the
embedded controllers read or write). -/
structure Session where
  sid : String
  host : String
  participants : List String
  status : Status
  codeSnippet : String
  endedAt : Option Int
deriving DecidableEq, Repr

/-- A direct-message document (the fields of the `Message` model that the
embedded code reads or writes). -/
structure Message where
  mid : Nat
  sender : String
  recipient : String
  text : String
  createdAt : Int
  read : Bool
deriving DecidableEq, Repr

/-- Delivery target of one Socket.IO emission. -/
inductive Target
  /-- `io.to(r1).to(r2)...emit` / `socket.to(r).emit`: broadcast to the
  sockets subscribed to any of the rooms, minus the optionally excluded
  socket id (`socket.to` excludes the emitting socket). -/
  | rooms (rs : List String) (excl : Option Nat)
  /-- `socket.emit`: direct to one socket, never a broadcast. -/
  | direct (sid : Nat)
deriving DecidableEq, Repr

/-- One emitted Socket.IO event: target, event name, key/value payload. -/
structure EventOut where
  target : Target
  name : String
  payload : List (String × String)
deriving DecidableEq, Repr

/-- Whether an emission is a room broadcast (a fan-out) rather than a
direct emission to a single socket. -/
def EventOut.isRoomBroadcast (e : EventOut) : Bool :=
  match e.target with
  | Target.rooms _ _ => true
  | Target.direct _ => false

/-- Per-connection state of one socket: its id, `socket.data.userId`
(absent while anonymous), and the set of rooms it has joined. -/
structure SocketState where
  sockId : Nat
  userId : Option String
  rooms : List String
deriving DecidableEq, Repr

/-- `socket.join(room)`: idempotent room subscription. -/
def joinRoom (sock : SocketState) (room : String) : SocketState :=
  if room ∈ sock.rooms then sock
  else { sock with rooms := sock.rooms ++ [room] }

/-- Whether the Socket.IO server delivers emission `e` to socket `s`:
a room broadcast reaches every socket subscribed to one of the target
rooms except the excluded socket; a direct emission reaches exactly the
named socket. -/
def deliversTo (e : EventOut) (s : SocketState) : Bool :=
  match e.target with
  | Target.rooms rs excl =>
      rs.any (fun r => s.rooms.contains r) &&
        (match excl with
         | some x => s.sockId ≠ x
         | none => true)
  | Target.direct sid => s.sockId = sid

/-! ## Socket handlers (`backend/server.js`) -/

/-- The `authenticate` socket handler of `backend/server.js`.
`verify` models `jwt.verify` resolving a token to a user id (`none` when
verification throws).  An empty token models the falsy-token early return:
the handler just logs and returns, emitting nothing.  On success it joins
the personal room, records the user id, and acknowledges; on a verify
failure it emits `authentication_error` to the socket alone. -/
def authenticateHandler (verify : String → Option String) (token : String)
    (sock : SocketState) : SocketState × List EventOut :=
  if token = "" then (sock, [])
  else
    match verify token with
    | some uid =>
        ({ joinRoom sock ("user:" ++ uid) with userId := some uid },
         [⟨Target.direct sock.sockId, "authentication_success",
           [("userId", uid)]⟩])
    | none =>
        (sock,
         [⟨Target.direct sock.sockId, "authentication_error",
           [("message", "Authentication failed")]⟩])

/-- The `authenticate` socket handler of the second server variant in the
repository: identical except that a missing token is thrown and caught, so
it also emits `authentication_error`. -/
def authenticateHandlerAlt (verify : String → Option String) (token : String)
    (sock : SocketState) : SocketState × List EventOut :=
  if token = "" then
    (sock,
     [⟨Target.direct sock.sockId, "authentication_error",
       [("message", "Authentication failed")]⟩])
  else
    match verify token with
    | some uid =>
        ({ joinRoom sock ("user:" ++ uid) with userId := some uid },
         [⟨Target.direct sock.sockId, "authentication_success",
           [("userId", uid)]⟩])
    | none =>
        (sock,
         [⟨Target.direct sock.sockId, "authentication_error",
           [("message", "Authentication failed")]⟩])

/-- The `join_session` socket handler: `socket.join('session:' + id)`. -/
def joinSessionRoomHandler (sessionId : String) (sock : SocketState) :
    SocketState :=
  joinRoom sock ("session:" ++ sessionId)

/-- The `code_update` socket handler.  It performs no lookup, no status
check and no participant check: it unconditionally broadcasts the new
buffer to room `session:<id>` excluding the sender
(`socket.to(...).emit`), tagging it with the sender's user id when one is
set. -/
def codeUpdateHandler (sessionId codeSnippet : String)
    (sock : SocketState) : List EventOut :=
  [⟨Target.rooms ["session:" ++ sessionId] (some sock.sockId), "code_update",
    ("codeSnippet", codeSnippet) ::
      (match sock.userId with
       | some u => [("updatedBy", u)]
       | none => [])⟩]

/-- The `mark_read` socket handler.  `Message.findByIdAndUpdate(messageId,
{read: true})`: the message is looked up by id only — the calling socket
(`sock`) is in scope but never consulted — and, when found, its read flag
is set and `message_read` is emitted to the sender's personal room. -/
def markReadHandler (store : List Message) (_sock : SocketState)
    (messageId : Nat) : List Message × List EventOut :=
  match store.find? (fun m => m.mid = messageId) with
  | none => (store, [])
  | some m =>
      (store.map (fun t => if t.mid = messageId then { t with read := true } else t),
       [⟨Target.rooms ["user:" ++ m.sender] none, "message_read",
         [("messageId", toString messageId)]⟩])

/-- The `direct_message` socket handler.  Requires an authenticated
socket; `Message.create` is awaited first (`createOk` is its outcome, and
`now`/`newId` the created document's timestamp and id); only on success is
`direct_message` broadcast to the recipient's and the sender's personal
rooms, and on failure only a `message_error` direct emission goes back to
the originator. -/
def directMessageHandler (store : List Message) (sock : SocketState)
    (recipientId text : String) (createOk : Bool) (now : Int) (newId : Nat) :
    List Message × List EventOut :=
  match sock.userId with
  | none => (store, [])
  | some senderId =>
      if createOk then
        let m : Message :=
          ⟨newId, senderId, recipientId, text, now, false⟩
        (store ++ [m],
         [⟨Target.rooms ["user:" ++ recipientId, "user:" ++ senderId] none,
           "direct_message",
           [("sender", senderId), ("recipient", recipientId),
            ("text", text), ("read", "false")]⟩])
      else
        (store,
         [⟨Target.direct sock.sockId, "message_error",
           [("error", "Failed to send message")]⟩])

/-- The `disconnect` socket handler of `backend/server.js`: it only logs
the reason; no session state is touched and nothing is emitted. -/
def disconnectHandler (store : List Session) :
    List Session × List EventOut :=
  (store, [])

/-! ## Live-session HTTP controllers
(`backend/controllers/collaborate/sessions.js`) -/

/-- `LiveSession.findById`. -/
def findSession (store : List Session) (sessionId : String) :
    Option Session :=
  store.find? (fun s => s.sid = sessionId)

/-- `session.save()` after mutating the document found by id:
every stored document with that id becomes the mutated one. -/
def saveSession (store : List Session) (sessionId : String) (s : Session) :
    List Session :=
  store.map (fun t => if t.sid = sessionId then s else t)

/-- Outcome of `updateCodeSnippet` (PUT `/:id/code`). -/
inductive CodeResult
  | notFound
  | notParticipant
  | endedSession
  | ok
deriving DecidableEq, Repr

/-- `updateCodeSnippet`: 404 when the session is missing, 403 when the
caller is not in `participants`, 400 when the status is `ended`; otherwise
the buffer is overwritten and saved.  The controller deliberately emits no
socket event on success (code updates travel on the separate socket
channel). -/
def updateCodeSnippet (store : List Session) (sessionId userId
    codeSnippet : String) : CodeResult × List Session × List EventOut :=
  match findSession store sessionId with
  | none => (CodeResult.notFound, store, [])
  | some s =>
      if ¬ s.participants.contains userId then
        (CodeResult.notParticipant, store, [])
      else if s.status = Status.ended then
        (CodeResult.endedSession, store, [])
      else
        (CodeResult.ok,
         saveSession store sessionId { s with codeSnippet := codeSnippet },
         [])

/-- Outcome of `joinSession` (PUT `/:id/join`). -/
inductive JoinResult
  | notFound
  | endedSession
  | ok
deriving DecidableEq, Repr

/-- `joinSession`: 404 when missing, 400 when `ended`; otherwise a
`scheduled` session becomes `live`, the user is added to `participants` if
absent, and `participant_joined` is emitted to room `session_<id>`. -/
def joinSession (store : List Session) (sessionId userId : String) :
    JoinResult × List Session × List EventOut :=
  match findSession store sessionId with
  | none => (JoinResult.notFound, store, [])
  | some s =>
      if s.status = Status.ended then
        (JoinResult.endedSession, store, [])
      else
        let s1 := if s.status = Status.scheduled then
            { s with status := Status.live } else s
        let s2 := if s1.participants.contains userId then s1
          else { s1 with participants := s1.participants ++ [userId] }
        (JoinResult.ok,
         saveSession store sessionId s2,
         [⟨Target.rooms ["session_" ++ sessionId] none, "participant_joined",
           [("sessionId", sessionId), ("user", userId),
            ("participantCount", toString s2.participants.length)]⟩])

/-- Outcome of `leaveSession` (PUT `/:id/leave`). -/
inductive LeaveResult
  | notFound
  | ok (hostLeft : Bool)
deriving DecidableEq, Repr

/-- `leaveSession`: 404 when missing; otherwise — with no check of the
current status — the user is filtered out of `participants`, and if the
leaver is the host the status is forced to `ended` with a fresh `endedAt`.
`participant_left` (and `session_ended` on host departure) is emitted to
room `session_<id>`. -/
def leaveSession (store : List Session) (sessionId userId : String)
    (now : Int) : LeaveResult × List Session × List EventOut :=
  match findSession store sessionId with
  | none => (LeaveResult.notFound, store, [])
  | some s =>
      let parts := s.participants.filter (fun p => p ≠ userId)
      let hostLeft := s.host = userId
      let s1 : Session :=
        if hostLeft then
          { s with participants := parts, status := Status.ended,
                   endedAt := some now }
        else { s with participants := parts }
      (LeaveResult.ok hostLeft,
       saveSession store sessionId s1,
       ⟨Target.rooms ["session_" ++ sessionId] none, "participant_left",
         [("sessionId", sessionId), ("userId", userId),
          ("hostLeft", if hostLeft then "true" else "false"),
          ("participantCount", toString parts.length)]⟩ ::
        (if hostLeft then
          [⟨Target.rooms ["session_" ++ sessionId] none, "session_ended",
            [("sessionId", sessionId), ("endedAt", toString now)]⟩]
         else []))

/-- Outcome of `updateSessionStatus` (PUT `/:id/status`). -/
inductive StatusResult
  | notFound
  | notHost
  | invalidStatus
  | cannotReopen
  | ok
deriving DecidableEq, Repr

/-- `updateSessionStatus`: 404 when missing, 403 for a non-host caller,
400 for a status string outside `scheduled|live|ended`, 400 when trying to
move an `ended` session to a different status.  Any other transition —
including `live` back to `scheduled` — is applied and saved; `endedAt` is
stamped only when the new status is `ended`.  `session_status_changed`
(plus `session_ended` when ending) goes to room `session_<id>`. -/
def updateSessionStatus (store : List Session) (sessionId userId
    statusStr : String) (now : Int) :
    StatusResult × List Session × List EventOut :=
  match findSession store sessionId with
  | none => (StatusResult.notFound, store, [])
  | some s =>
      if s.host ≠ userId then (StatusResult.notHost, store, [])
      else
        match parseStatus statusStr with
        | none => (StatusResult.invalidStatus, store, [])
        | some st =>
            if s.status = Status.ended ∧ st ≠ Status.ended then
              (StatusResult.cannotReopen, store, [])
            else
              let s1 : Session :=
                { s with status := st,
                         endedAt := if st = Status.ended then some now
                                    else s.endedAt }
              (StatusResult.ok,
               saveSession store sessionId s1,
               ⟨Target.rooms ["session_" ++ sessionId] none,
                 "session_status_changed",
                 [("sessionId", sessionId), ("status", statusStr)]⟩ ::
                (if st = Status.ended then
                  [⟨Target.rooms ["session_" ++ sessionId] none,
                    "session_ended",
                    [("sessionId", sessionId), ("endedAt", toString now)]⟩]
                 else []))

/-! ## Message HTTP controllers (`server/controllers/messages.js`) -/

/-- Outcome of `getMessages` (GET `/api/messages/:userId`). -/
inductive GetMessagesResult
  | userNotFound
  | ok (msgs : List Message)
deriving DecidableEq, Repr

/-- Whether a message belongs to the conversation between the two users. -/
def betweenUsers (currentUserId otherUserId : String) (m : Message) : Bool :=
  (m.sender = currentUserId ∧ m.recipient = otherUserId) ∨
    (m.sender = otherUserId ∧ m.recipient = currentUserId)

/-- `getMessages`: validates the other user exists, returns the
conversation sorted by `createdAt`, then — as a side effect of the fetch —
runs `Message.updateMany({sender: other, recipient: current, read: false},
{read: true})`.  `req.io` is never used: no socket event is emitted. -/
def getMessages (users : List String) (store : List Message)
    (currentUserId otherUserId : String) :
    GetMessagesResult × List Message × List EventOut :=
  if ¬ users.contains otherUserId then
    (GetMessagesResult.userNotFound, store, [])
  else
    let msgs :=
      (store.filter (betweenUsers currentUserId otherUserId)).mergeSort
        (fun a b => a.createdAt ≤ b.createdAt)
    let store1 := store.map (fun m =>
      if m.sender = otherUserId ∧ m.recipient = currentUserId ∧
          m.read = false then
        { m with read := true }
      else m)
    (GetMessagesResult.ok msgs, store1, [])

/-- Outcome of `sendMessage` (POST `/api/messages/:userId`). -/
inductive SendResult
  | selfMessage
  | recipientNotFound
  | duplicate (m : Message)
  | created (m : Message)
  | storeFailure
deriving DecidableEq, Repr

/-- The duplicate-window query of `sendMessage`: a message with the same
sender, recipient and text whose `createdAt` is strictly within the last
5000 milliseconds (`createdAt > now - 5000`). -/
def findRecentDuplicate (store : List Message) (sender recipient
    text : String) (now : Int) : Option Message :=
  store.find? (fun m =>
    m.sender = sender ∧ m.recipient = recipient ∧ m.text = text ∧
      m.createdAt > now - 5000)

/-- `sendMessage`: 400 on self-messaging, 404 when the recipient user does
not exist, then the duplicate-window check — a hit returns the existing
message with `duplicate: true`, creating nothing and emitting nothing.
Otherwise `Message.create` runs (`createOk` its outcome, `newId` the new
id); only after it succeeds is `new_message` emitted to the recipient's
personal room. -/
def sendMessage (users : List String) (store : List Message)
    (sender recipient text : String) (now : Int) (newId : Nat)
    (createOk : Bool) : SendResult × List Message × List EventOut :=
  if sender = recipient then (SendResult.selfMessage, store, [])
  else if ¬ users.contains recipient then
    (SendResult.recipientNotFound, store, [])
  else
    match findRecentDuplicate store sender recipient text now with
    | some m => (SendResult.duplicate m, store, [])
    | none =>
        if createOk then
          let m : Message := ⟨newId, sender, recipient, text, now, false⟩
          (SendResult.created m, store ++ [m],
           [⟨Target.rooms ["user:" ++ recipient] none, "new_message",
             [("sender", sender), ("recipient", recipient),
              ("text", text)]⟩])
        else (SendResult.storeFailure, store, [])

/-! ## Helper lemmas -/

/-- A session found by id carries that id. -/
theorem findSession_sid {store : List Session} {sessionId : String}
    {s : Session} (h : findSession store sessionId = some s) :
    s.sid = sessionId := by
  have h2 := List.find?_some h
  simpa using h2

/-- Every element of a saved store is either the saved document or an
untouched document with a different id. -/
theorem mem_saveSession {store : List Session} {sessionId : String}
    {s1 t : Session} (h : t ∈ saveSession store sessionId s1) :
    t = s1 ∨ (t ∈ store ∧ t.sid ≠ sessionId) := by
  unfold saveSession at h
  rcases List.mem_map.mp h with ⟨u, hu, he⟩
  by_cases hc : u.sid = sessionId
  · left
    simp only [hc, if_pos] at he
    exact he.symm
  · right
    simp only [hc, if_neg, not_false_iff] at he
    subst he
    exact ⟨hu, hc⟩

/-- Looking up a session after saving a document with the same id finds
the saved document. -/
theorem findSession_saveSession {store : List Session} {sessionId : String}
    {s s1 : Session} (h : findSession store sessionId = some s)
    (h1 : s1.sid = sessionId) :
    findSession (saveSession store sessionId s1) sessionId = some s1 := by
  unfold findSession saveSession at *
  induction store with
  | nil => simp at h
  | cons a l ih =>
    rw [List.map_cons]
    by_cases hc : a.sid = sessionId
    · rw [if_pos hc]
      exact List.find?_cons_of_pos _ (by simp [h1])
    · rw [if_neg hc]
      rw [List.find?_cons_of_neg _ (by simp [hc])] at h
      rw [List.find?_cons_of_neg _ (by simp [hc])]
      exact ih h

/-! ## Claim C1 -/

/-- C1 counterexample: the `code_update` inbound event is not rejected
when the session does not exist (and a fortiori not when it is ended or
the editor is no participant).  With an empty session store, a
`code_update` for session `s1` from a connection that never joined any
session still produces the fan-out instead of a rejection. -/
theorem c1_counterexample :
    findSession [] "s1" = none ∧
    codeUpdateHandler "s1" "print(1)" ⟨7, some "x", []⟩ =
      [⟨Target.rooms ["session:s1"] (some 7), "code_update",
        [("codeSnippet", "print(1)"), ("updatedBy", "x")]⟩] :=
  ⟨rfl, rfl⟩

/-- C1 (amended): the socket `code_update` path performs no validation at
all — for every request it emits exactly one `code_update` fan-out on room
`session:<sessionId>` excluding the editor's own connection, carrying the
new buffer, and a subscriber receives it iff it is subscribed to that room
and is not the editor's connection.  Only the HTTP `updateCodeSnippet`
path rejects, and it accepts exactly when the session exists, the editor
is in the participant set, and the status is not `ended`; an accepted
HTTP edit persists the buffer but emits no fan-out at all. -/
theorem c1_code_update_paths (store : List Session)
    (sessionId buf uid : String) (sock t : SocketState) :
    (∃ e, codeUpdateHandler sessionId buf sock = [e] ∧
      e.target = Target.rooms ["session:" ++ sessionId] (some sock.sockId) ∧
      e.name = "code_update" ∧ ("codeSnippet", buf) ∈ e.payload ∧
      (deliversTo e t = true ↔
        ("session:" ++ sessionId) ∈ t.rooms ∧ t.sockId ≠ sock.sockId)) ∧
    ((updateCodeSnippet store sessionId uid buf).1 = CodeResult.ok ↔
      ∃ s, findSession store sessionId = some s ∧
        uid ∈ s.participants ∧ s.status ≠ Status.ended) ∧
    ((updateCodeSnippet store sessionId uid buf).1 = CodeResult.ok →
      ∃ s, findSession store sessionId = some s ∧
        (updateCodeSnippet store sessionId uid buf).2.1 =
          saveSession store sessionId { s with codeSnippet := buf }) ∧
    (updateCodeSnippet store sessionId uid buf).2.2 = [] := by
  refine ⟨⟨_, rfl, rfl, rfl, List.mem_cons_self _ _, ?_⟩, ?_, ?_, ?_⟩
  · simp [deliversTo]
  · cases hf : findSession store sessionId with
    | none => simp [updateCodeSnippet, hf]
    | some s =>
        by_cases hp : uid ∈ s.participants
        · by_cases he : s.status = Status.ended
          · simp [updateCodeSnippet, hf, hp, he]
          · simp [updateCodeSnippet, hf, hp, he]
        · simp [updateCodeSnippet, hf, hp]
  · cases hf : findSession store sessionId with
    | none => simp [updateCodeSnippet, hf]
    | some s =>
        by_cases hp : uid ∈ s.participants
        · by_cases he : s.status = Status.ended
          · simp [updateCodeSnippet, hf, hp, he]
          · intro _
            exact ⟨s, rfl, by simp [updateCodeSnippet, hf, hp, he]⟩
        · simp [updateCodeSnippet, hf, hp]
  · cases hf : findSession store sessionId with
    | none => simp [updateCodeSnippet, hf]
    | some s =>
        by_cases hp : uid ∈ s.participants
        · by_cases he : s.status = Status.ended
          · simp [updateCodeSnippet, hf, hp, he]
          · simp [updateCodeSnippet, hf, hp, he]
        · simp [updateCodeSnippet, hf, hp]

/-- C1 witness: the acceptance characterisation of the HTTP path applied
to a concrete one-session store. -/
theorem c1_code_update_paths_witness :
    (updateCodeSnippet [⟨"s1", "h", ["h"], Status.live, "", none⟩]
      "s1" "h" "x").1 = CodeResult.ok :=
  ((c1_code_update_paths [⟨"s1", "h", ["h"], Status.live, "", none⟩]
      "s1" "x" "h" ⟨1, none, []⟩ ⟨2, none, []⟩).2.1).mpr
    ⟨⟨"s1", "h", ["h"], Status.live, "", none⟩, by decide, by decide, by decide⟩

/-! ## Claim C2 -/

/-- C2 counterexample: `leaveSession` against an `ended` session is not
rejected — it succeeds, removes the participant from the stored roster,
and fans out a `participant_left` event. -/
theorem c2_counterexample :
    leaveSession [⟨"s1", "h", ["h", "p"], Status.ended, "buf", some 100⟩]
        "s1" "p" 200 =
      (LeaveResult.ok false,
       [⟨"s1", "h", ["h"], Status.ended, "buf", some 100⟩],
       [⟨Target.rooms ["session_s1"] none, "participant_left",
         [("sessionId", "s1"), ("userId", "p"), ("hostLeft", "false"),
          ("participantCount", "1")]⟩]) := by
  decide

/-- C2 (amended): against an `ended` session, `updateCodeSnippet` and
`joinSession` return a rejection, leave the store unchanged and emit
nothing; but `leaveSession` has no ended-status guard — it reports
success, mutates the roster, and fans out `participant_left` anyway. -/
theorem c2_ended_session_mutations (store : List Session) (s : Session)
    (sessionId uid buf : String) (now : Int)
    (hfind : findSession store sessionId = some s)
    (hend : s.status = Status.ended) :
    ((updateCodeSnippet store sessionId uid buf).1 ≠ CodeResult.ok ∧
      (updateCodeSnippet store sessionId uid buf).2.1 = store ∧
      (updateCodeSnippet store sessionId uid buf).2.2 = []) ∧
    (joinSession store sessionId uid =
      (JoinResult.endedSession, store, [])) ∧
    ((leaveSession store sessionId uid now).1 =
      LeaveResult.ok (s.host = uid)) ∧
    ((leaveSession store sessionId uid now).2.2 ≠ []) := by
  refine ⟨?_, ?_, ?_, ?_⟩
  · by_cases hp : uid ∈ s.participants
    · exact ⟨by simp [updateCodeSnippet, hfind, hp, hend],
        by simp [updateCodeSnippet, hfind, hp, hend],
        by simp [updateCodeSnippet, hfind, hp, hend]⟩
    · exact ⟨by simp [updateCodeSnippet, hfind, hp],
        by simp [updateCodeSnippet, hfind, hp],
        by simp [updateCodeSnippet, hfind, hp]⟩
  · simp [joinSession, hfind, hend]
  · by_cases hh : s.host = uid
    · simp [leaveSession, hfind, hh]
    · simp [leaveSession, hfind, hh]
  · by_cases hh : s.host = uid
    · simp [leaveSession, hfind, hh]
    · simp [leaveSession, hfind, hh]

/-- C2 witness: the amended statement applied to a concrete ended session
with participants `h` and `p`, with `p` the caller. -/
theorem c2_ended_session_mutations_witness :
    (leaveSession [⟨"s1", "h", ["h", "p"], Status.ended, "buf", some 100⟩]
      "s1" "p" 200).2.2 ≠ [] :=
  (c2_ended_session_mutations
    [⟨"s1", "h", ["h", "p"], Status.ended, "buf", some 100⟩]
    ⟨"s1", "h", ["h", "p"], Status.ended, "buf", some 100⟩
    "s1" "p" "code" 200 (by decide) (by decide)).2.2.2

/-! ## Claim C3 -/

/-- C3 counterexample: a connection already identified as user `a` that
re-authenticates with a credential resolving to user `b` is not rejected
with any error — its identified-user id is overwritten to `b`, it joins
`user:b` while staying in `user:a`, and `authentication_success` is
emitted. -/
theorem c3_counterexample :
    authenticateHandler (fun t => if t = "tb" then some "b" else none)
        "tb" ⟨3, some "a", ["user:a"]⟩ =
      (⟨3, some "b", ["user:a", "user:b"]⟩,
       [⟨Target.direct 3, "authentication_success", [("userId", "b")]⟩]) := by
  decide

/-- C3 (amended): a second `authenticate` call is processed exactly like a
first one — there is no `AlreadyAuthenticatedAsDifferentUser` check.  For
any connection (whatever user it is already identified as), a credential
resolving to user `b` overwrites the connection's identified-user id with
`b`, adds `user:b` to its rooms while keeping all previously joined rooms,
and emits `authentication_success`; no error event is produced. -/
theorem c3_reauthenticate_overwrites (verify : String → Option String)
    (token : String) (sock : SocketState) (uidB : String)
    (htok : token ≠ "") (hres : verify token = some uidB) :
    (authenticateHandler verify token sock).1.userId = some uidB ∧
    ("user:" ++ uidB) ∈ (authenticateHandler verify token sock).1.rooms ∧
    (∀ r ∈ sock.rooms, r ∈ (authenticateHandler verify token sock).1.rooms) ∧
    (authenticateHandler verify token sock).2 =
      [⟨Target.direct sock.sockId, "authentication_success",
        [("userId", uidB)]⟩] := by
  unfold authenticateHandler
  rw [if_neg htok, hres]
  refine ⟨rfl, ?_, ?_, rfl⟩
  · unfold joinRoom
    by_cases hr : ("user:" ++ uidB) ∈ sock.rooms
    · simp [hr]
    · simp [hr]
  · intro r hr
    unfold joinRoom
    by_cases hm : ("user:" ++ uidB) ∈ sock.rooms
    · simpa [hm] using hr
    · simp [hm, List.mem_append]
      exact Or.inl hr

/-- C3 witness: re-authentication of a connection identified as `a` with a
credential for `b`, on concrete inputs. -/
theorem c3_reauthenticate_overwrites_witness :
    (authenticateHandler (fun t => if t = "tb" then some "b" else none)
      "tb" ⟨3, some "a", ["user:a"]⟩).1.userId = some "b" :=
  (c3_reauthenticate_overwrites (fun t => if t = "tb" then some "b" else none)
    "tb" ⟨3, some "a", ["user:a"]⟩ "b" (by decide) (by decide)).1

/-! ## Claim C4 -/

/-- C4 counterexample: a `mark_read` request from a connection identified
as user `x`, who is not the recipient `r` of message 1, is not rejected —
the message's read flag is set to `true` and `message_read` is fanned out
to the sender's personal room. -/
theorem c4_counterexample :
    (⟨7, some "x", []⟩ : SocketState).userId ≠ some "r" ∧
    markReadHandler [⟨1, "s", "r", "hi", 0, false⟩] ⟨7, some "x", []⟩ 1 =
      ([⟨1, "s", "r", "hi", 0, true⟩],
       [⟨Target.rooms ["user:s"] none, "message_read",
         [("messageId", "1")]⟩]) := by
  refine ⟨by decide, ?_⟩
  decide

/-- C4 (amended): `mark_read` performs no recipient check at all.  For any
calling connection, if the message id exists, every stored copy of that
message gets `read := true` (messages with other ids are untouched) and a
single `message_read` fan-out goes to the sender's personal room; if the
id does not exist, nothing changes and nothing is emitted. -/
theorem c4_mark_read_unchecked (store : List Message) (sock : SocketState)
    (messageId : Nat) :
    (∀ m, store.find? (fun t => t.mid = messageId) = some m →
      (markReadHandler store sock messageId).2 =
        [⟨Target.rooms ["user:" ++ m.sender] none, "message_read",
          [("messageId", toString messageId)]⟩] ∧
      (∀ t ∈ (markReadHandler store sock messageId).1,
        (t.mid = messageId → t.read = true) ∧
        (t.mid ≠ messageId → t ∈ store))) ∧
    (store.find? (fun t => t.mid = messageId) = none →
      markReadHandler store sock messageId = (store, [])) := by
  constructor
  · intro m hm
    constructor
    · simp [markReadHandler, hm]
    · intro t ht
      simp only [markReadHandler, hm] at ht
      rcases List.mem_map.mp ht with ⟨u, hu, he⟩
      by_cases hc : u.mid = messageId
      · constructor
        · intro _
          rw [← he]
          simp [hc]
        · intro hne
          exact absurd (by rw [← he]; simp [hc]) hne
      · constructor
        · intro hmid
          rw [← he] at hmid
          simp [hc] at hmid
        · intro _
          rw [← he]
          simpa [hc] using hu
  · intro hnone
    simp [markReadHandler, hnone]

/-- C4 witness: message 1 (sender `s`, recipient `r`) marked read by a
connection identified as `x`, on concrete inputs. -/
theorem c4_mark_read_unchecked_witness :
    (markReadHandler [⟨1, "s", "r", "hi", 0, false⟩] ⟨7, some "x", []⟩ 1).2 =
      [⟨Target.rooms ["user:s"] none, "message_read",
        [("messageId", "1")]⟩] :=
  ((c4_mark_read_unchecked [⟨1, "s", "r", "hi", 0, false⟩]
      ⟨7, some "x", []⟩ 1).1 ⟨1, "s", "r", "hi", 0, false⟩ (by decide)).1

/-! ## Claim C5 -/

/-- C5: both message-creating paths publish their fan-out only after the
durable write has succeeded.  When `Message.create` fails, the HTTP
`sendMessage` emits nothing at all and the socket `direct_message` handler
emits at most a `message_error` directly to the originating connection —
never a room broadcast — and the store is unchanged.  When a room fan-out
does occur, the created message is present in the resulting store. -/
theorem c5_fanout_after_commit (users : List String) (store : List Message)
    (sock : SocketState) (sender recipient text : String)
    (now : Int) (newId : Nat) :
    ((sendMessage users store sender recipient text now newId false).2.2 = [] ∧
     (sendMessage users store sender recipient text now newId false).2.1 =
       store) ∧
    (∀ e ∈ (sendMessage users store sender recipient text now newId
        true).2.2,
      e.isRoomBroadcast = true →
        e.name = "new_message" ∧
        (⟨newId, sender, recipient, text, now, false⟩ : Message) ∈
          (sendMessage users store sender recipient text now newId
            true).2.1) ∧
    (∀ e ∈ (directMessageHandler store sock recipient text false now
        newId).2,
      e.isRoomBroadcast = false ∧ e.target = Target.direct sock.sockId) ∧
    ((directMessageHandler store sock recipient text false now newId).1 =
      store) ∧
    (∀ e ∈ (directMessageHandler store sock recipient text true now
        newId).2,
      e.isRoomBroadcast = true →
        ∃ senderId, sock.userId = some senderId ∧
          (⟨newId, senderId, recipient, text, now, false⟩ : Message) ∈
            (directMessageHandler store sock recipient text true now
              newId).1) := by
  refine ⟨⟨?_, ?_⟩, ?_, ?_, ?_, ?_⟩
  · by_cases hs : sender = recipient
    · simp [sendMessage, hs]
    · by_cases hu : recipient ∈ users
      · cases hd : findRecentDuplicate store sender recipient text now with
        | none => simp [sendMessage, hs, hu, hd]
        | some m => simp [sendMessage, hs, hu, hd]
      · simp [sendMessage, hs, hu]
  · by_cases hs : sender = recipient
    · simp [sendMessage, hs]
    · by_cases hu : recipient ∈ users
      · cases hd : findRecentDuplicate store sender recipient text now with
        | none => simp [sendMessage, hs, hu, hd]
        | some m => simp [sendMessage, hs, hu, hd]
      · simp [sendMessage, hs, hu]
  · intro e he hb
    by_cases hs : sender = recipient
    · simp [sendMessage, hs] at he
    · by_cases hu : recipient ∈ users
      · cases hd : findRecentDuplicate store sender recipient text now with
        | none =>
            simp [sendMessage, hs, hu, hd] at he
            subst he
            simp [sendMessage, hs, hu, hd]
        | some m => simp [sendMessage, hs, hu, hd] at he
      · simp [sendMessage, hs, hu] at he
  · intro e he
    cases hid : sock.userId with
    | none => simp [directMessageHandler, hid] at he
    | some senderId =>
        simp only [directMessageHandler, hid] at he
        simp at he
        subst he
        exact ⟨rfl, rfl⟩
  · cases hid : sock.userId with
    | none => simp [directMessageHandler, hid]
    | some senderId => simp [directMessageHandler, hid]
  · intro e he hb
    cases hid : sock.userId with
    | none => simp [directMessageHandler, hid] at he
    | some senderId =>
        simp only [directMessageHandler, hid] at he
        simp at he
        subst he
        exact ⟨senderId, rfl, by simp [directMessageHandler, hid]⟩

/-- C5 witness: a successful HTTP send on concrete inputs puts the created
message in the store reached by the `new_message` fan-out. -/
theorem c5_fanout_after_commit_witness :
    (⟨0, "s", "r", "hi", 5, false⟩ : Message) ∈
      (sendMessage ["r"] [] "s" "r" "hi" 5 0 true).2.1 :=
  (((c5_fanout_after_commit ["r"] [] ⟨1, some "s", []⟩ "s" "r" "hi" 5 0).2.1
    ⟨Target.rooms ["user:r"] none, "new_message",
      [("sender", "s"), ("recipient", "r"), ("text", "hi")]⟩
    (by decide) (by decide))).2

/-! ## Claim C6 -/

/-- C6 counterexample: `updateSessionStatus` accepts moving a `live`
session back to `scheduled` — the status does not move forward-only. -/
theorem c6_counterexample :
    updateSessionStatus [⟨"s1", "h", ["h"], Status.live, "c", none⟩]
        "s1" "h" "scheduled" 50 =
      (StatusResult.ok,
       [⟨"s1", "h", ["h"], Status.scheduled, "c", none⟩],
       [⟨Target.rooms ["session_s1"] none, "session_status_changed",
         [("sessionId", "s1"), ("status", "scheduled")]⟩]) := by
  decide

/-- C6 (amended): `ended` is terminal — under every operation
(`updateSessionStatus`, `updateCodeSnippet`, `joinSession`,
`leaveSession`) a session whose status is `ended` still has status
`ended` afterwards — but the status is not forward-monotonic below that:
`updateSessionStatus` accepts a host request moving a `live` session back
to `scheduled`. -/
theorem c6_status_machine (store : List Session) (s : Session)
    (sessionId uid statusStr buf : String) (now : Int)
    (hfind : findSession store sessionId = some s)
    (hend : s.status = Status.ended) :
    (∃ s1, findSession
        (updateSessionStatus store sessionId uid statusStr now).2.1
        sessionId = some s1 ∧ s1.status = Status.ended) ∧
    (∃ s1, findSession (updateCodeSnippet store sessionId uid buf).2.1
        sessionId = some s1 ∧ s1.status = Status.ended) ∧
    (∃ s1, findSession (joinSession store sessionId uid).2.1
        sessionId = some s1 ∧ s1.status = Status.ended) ∧
    (∃ s1, findSession (leaveSession store sessionId uid now).2.1
        sessionId = some s1 ∧ s1.status = Status.ended) ∧
    (∀ store2 (s2 : Session) (sid2 : String),
      findSession store2 sid2 = some s2 → s2.status = Status.live →
      (updateSessionStatus store2 sid2 s2.host "scheduled" now).1 =
        StatusResult.ok ∧
      findSession (updateSessionStatus store2 sid2 s2.host "scheduled"
          now).2.1 sid2 =
        some { s2 with status := Status.scheduled }) := by
  have hsid : s.sid = sessionId := findSession_sid hfind
  refine ⟨?_, ?_, ?_, ?_, ?_⟩
  · by_cases hh : s.host ≠ uid
    · exact ⟨s, by simp [updateSessionStatus, hfind, hh], hend⟩
    · cases hp : parseStatus statusStr with
      | none => exact ⟨s, by simp [updateSessionStatus, hfind, hh, hp], hend⟩
      | some st =>
          by_cases hst : st = Status.ended
          · refine ⟨{ s with status := Status.ended, endedAt := some now }, ?_, rfl⟩
            have hsave := @findSession_saveSession store sessionId s { s with status := Status.ended, endedAt := some now } hfind hsid
            simp only [updateSessionStatus, hfind, hh, hp, hst]
            simp [hend, hsave]
          · exact ⟨s,
              by simp [updateSessionStatus, hfind, hh, hp, hend, hst], hend⟩
  · by_cases hpart : uid ∈ s.participants
    · exact ⟨s,
        by simp [updateCodeSnippet, hfind, hpart, hend], hend⟩
    · exact ⟨s, by simp [updateCodeSnippet, hfind, hpart], hend⟩
  · exact ⟨s, by simp [joinSession, hfind, hend], hend⟩
  · by_cases hh : s.host = uid
    · refine ⟨{ s with participants := s.participants.filter (fun p => p ≠ uid), status := Status.ended, endedAt := some now }, ?_, rfl⟩
      have hsave := @findSession_saveSession store sessionId s { s with participants := s.participants.filter (fun p => p ≠ uid), status := Status.ended, endedAt := some now } hfind hsid
      simp only [leaveSession, hfind, hh]
      simpa [hh] using hsave
    · refine ⟨{ s with participants := s.participants.filter (fun p => p ≠ uid) }, ?_, hend⟩
      have hsave := @findSession_saveSession store sessionId s { s with participants := s.participants.filter (fun p => p ≠ uid) } hfind hsid
      simp only [leaveSession, hfind, hh]
      simpa using hsave
  · intro store2 s2 sid2 hf2 hlive
    have hsid2 : s2.sid = sid2 := findSession_sid hf2
    constructor
    · simp [updateSessionStatus, hf2, parseStatus, hlive]
    · have hsave := @findSession_saveSession store2 sid2 s2 { s2 with status := Status.scheduled } hf2 hsid2
      simp only [updateSessionStatus, hf2, parseStatus]
      simp [hlive]
      simpa using hsave

/-- C6 witness: the terminal-state half applied to a concrete ended
session, extracting that `leaveSession` leaves the status `ended`. -/
theorem c6_status_machine_witness :
    ∃ s1, findSession
        (leaveSession [⟨"s1", "h", ["h"], Status.ended, "c", some 9⟩]
          "s1" "h" 50).2.1 "s1" = some s1 ∧ s1.status = Status.ended :=
  (c6_status_machine [⟨"s1", "h", ["h"], Status.ended, "c", some 9⟩]
    ⟨"s1", "h", ["h"], Status.ended, "c", some 9⟩
    "s1" "h" "live" "b" 50 (by decide) (by decide)).2.2.2.1

/-! ## Claim C7 -/

/-- The room the session controllers emit to (`session_<id>`) is never
the room the `join_session` socket handler subscribes to
(`session:<id>`). -/
theorem session_room_names_differ (x : String) :
    ("session_" ++ x) ≠ ("session:" ++ x) := by
  intro h
  have hd := congrArg String.data h
  rw [String.data_append, String.data_append] at hd
  have hlen : ("session_".data).length = ("session:".data).length := by
    decide
  have hpre := (List.append_inj hd hlen).1
  exact absurd hpre (by decide)

/-- C7 counterexample: session `s1` is `live` with host `h` and
participant `p`, and `p` subscribed through `join_session`.  The host's
transport disconnect leaves the session untouched and emits nothing, and
even the host's explicit `leaveSession` emits its two events to room
`session_s1`, which `p`'s subscribed connection (in room `session:s1`)
does not receive. -/
theorem c7_counterexample :
    disconnectHandler [⟨"s1", "h", ["h", "p"], Status.live, "c", none⟩] =
      ([⟨"s1", "h", ["h", "p"], Status.live, "c", none⟩], []) ∧
    (leaveSession [⟨"s1", "h", ["h", "p"], Status.live, "c", none⟩]
        "s1" "h" 99).2.2 =
      [⟨Target.rooms ["session_s1"] none, "participant_left",
        [("sessionId", "s1"), ("userId", "h"), ("hostLeft", "true"),
         ("participantCount", "1")]⟩,
       ⟨Target.rooms ["session_s1"] none, "session_ended",
        [("sessionId", "s1"), ("endedAt", "99")]⟩] ∧
    deliversTo
      ⟨Target.rooms ["session_s1"] none, "session_ended",
        [("sessionId", "s1"), ("endedAt", "99")]⟩
      (joinSessionRoomHandler "s1" ⟨2, some "p", []⟩) = false := by
  refine ⟨rfl, by decide, by decide⟩

/-- C7 (amended): when the host leaves via `leaveSession`, the session's
status does become `ended` and a `session_ended` event is fanned out — but
to room `session_<id>`, which a connection subscribed via the
`join_session` handler (room `session:<id>`) never receives — and a
subsequent HTTP edit attempt is rejected.  The host's transport
disconnect alone changes nothing: the `disconnect` handler only logs. -/
theorem c7_host_leave_behavior (store : List Session) (s : Session)
    (sessionId p buf : String) (sock0 : SocketState) (now : Int)
    (hfind : findSession store sessionId = some s)
    (hrooms : sock0.rooms = []) :
    (leaveSession store sessionId s.host now).1 = LeaveResult.ok true ∧
    (∃ s1, findSession (leaveSession store sessionId s.host now).2.1
        sessionId = some s1 ∧ s1.status = Status.ended) ∧
    (∃ e ∈ (leaveSession store sessionId s.host now).2.2,
      e.name = "session_ended" ∧
      e.target = Target.rooms ["session_" ++ sessionId] none) ∧
    (∀ e ∈ (leaveSession store sessionId s.host now).2.2,
      deliversTo e (joinSessionRoomHandler sessionId sock0) = false) ∧
    ((updateCodeSnippet (leaveSession store sessionId s.host now).2.1
        sessionId p buf).1 ≠ CodeResult.ok) ∧
    disconnectHandler store = (store, []) := by
  have hsid : s.sid = sessionId := findSession_sid hfind
  have hsave := @findSession_saveSession store sessionId s { s with participants := s.participants.filter (fun q => q ≠ s.host), status := Status.ended, endedAt := some now } hfind hsid
  have hnew : findSession (leaveSession store sessionId s.host now).2.1
      sessionId = some { s with participants := s.participants.filter (fun q => q ≠ s.host), status := Status.ended, endedAt := some now } := by
    simp only [leaveSession, hfind]
    simpa using hsave
  refine ⟨?_, ?_, ?_, ?_, ?_, rfl⟩
  · simp [leaveSession, hfind]
  · exact ⟨_, hnew, rfl⟩
  · refine ⟨⟨Target.rooms ["session_" ++ sessionId] none, "session_ended",
      [("sessionId", sessionId), ("endedAt", toString now)]⟩, ?_, rfl, rfl⟩
    simp [leaveSession, hfind]
  · intro e he
    have htarget : e.target = Target.rooms ["session_" ++ sessionId] none := by
      simp [leaveSession, hfind] at he
      rcases he with h1 | h2
      · rw [h1]
      · rw [h2]
    have hroomsP : (joinSessionRoomHandler sessionId sock0).rooms =
        ["session:" ++ sessionId] := by
      simp [joinSessionRoomHandler, joinRoom, hrooms]
    simp [deliversTo, htarget, hroomsP]
    exact fun h => absurd h (session_room_names_differ sessionId)
  · rw [updateCodeSnippet.eq_def, hnew]
    split
    · simp
    · rename_i s2 heq
      obtain rfl := Option.some.inj heq
      split
      · simp
      · simp

/-- C7 witness: the amended statement applied to a concrete live session
with host `h` and participant `p`, and a fresh connection for `p`. -/
theorem c7_host_leave_behavior_witness :
    (leaveSession [⟨"s1", "h", ["h", "p"], Status.live, "c", none⟩]
      "s1" "h" 99).1 = LeaveResult.ok true :=
  (c7_host_leave_behavior
    [⟨"s1", "h", ["h", "p"], Status.live, "c", none⟩]
    ⟨"s1", "h", ["h", "p"], Status.live, "c", none⟩
    "s1" "p" "b" ⟨2, some "p", []⟩ 99 (by decide) rfl).1

/-! ## Claim C8 -/

/-- C8 counterexample: in `backend/server.js`, an `authenticate` call with
a missing/empty credential fails silently — the session stays anonymous
but no `authentication_error` event is emitted at all. -/
theorem c8_counterexample :
    authenticateHandler (fun t => if t = "good" then some "u" else none)
        "" ⟨5, none, []⟩ = (⟨5, none, []⟩, []) := by
  decide

/-- C8 (amended): every failed `authenticate` leaves the connection's
session unchanged (hence anonymous if it was), and the
`authentication_error` emission — when it happens — is directed to the
single originating connection, never broadcast.  But in
`backend/server.js` a missing/empty credential is silently ignored with
no event; only an invalid credential produces `authentication_error`.
The repository's second server variant emits `authentication_error` in
every failure case, including the missing credential. -/
theorem c8_auth_failure_emissions (verify : String → Option String)
    (token : String) (sock : SocketState) :
    (token = "" →
      authenticateHandler verify token sock = (sock, []) ∧
      authenticateHandlerAlt verify token sock =
        (sock, [⟨Target.direct sock.sockId, "authentication_error",
                 [("message", "Authentication failed")]⟩])) ∧
    (token ≠ "" → verify token = none →
      authenticateHandler verify token sock =
        (sock, [⟨Target.direct sock.sockId, "authentication_error",
                 [("message", "Authentication failed")]⟩]) ∧
      authenticateHandlerAlt verify token sock =
        authenticateHandler verify token sock) ∧
    (∀ t : SocketState,
      deliversTo ⟨Target.direct sock.sockId, "authentication_error",
        [("message", "Authentication failed")]⟩ t = true ↔
        t.sockId = sock.sockId) := by
  refine ⟨?_, ?_, ?_⟩
  · intro h
    exact ⟨by simp [authenticateHandler, h],
      by simp [authenticateHandlerAlt, h]⟩
  · intro h hv
    exact ⟨by simp [authenticateHandler, h, hv],
      by simp [authenticateHandlerAlt, authenticateHandler, h, hv]⟩
  · intro t
    simp [deliversTo]

/-- C8 witness: an invalid non-empty credential on a concrete anonymous
connection produces exactly one `authentication_error` to that
connection. -/
theorem c8_auth_failure_emissions_witness :
    authenticateHandler (fun _ => none) "bad" ⟨5, none, []⟩ =
      (⟨5, none, []⟩,
       [⟨Target.direct 5, "authentication_error",
         [("message", "Authentication failed")]⟩]) :=
  ((c8_auth_failure_emissions (fun _ => none) "bad" ⟨5, none, []⟩).2.1
    (by decide) rfl).1

/-! ## Claim C9 -/

/-- C9: a `sendMessage` HTTP request (from a valid sender to an existing
recipient) whose sender, recipient and text exactly match a stored
message created within the previous 5 seconds creates nothing: it returns
the existing message as a `duplicate` result, leaves the store unchanged,
and emits no `new_message` fan-out. -/
theorem c9_duplicate_window (users : List String) (store : List Message)
    (sender recipient text : String) (now : Int) (newId : Nat)
    (createOk : Bool)
    (hself : sender ≠ recipient)
    (hrec : recipient ∈ users)
    (hdup : ∃ m0 ∈ store, m0.sender = sender ∧ m0.recipient = recipient ∧
      m0.text = text ∧ now - m0.createdAt < 5000) :
    ∃ m, findRecentDuplicate store sender recipient text now = some m ∧
      m.sender = sender ∧ m.recipient = recipient ∧ m.text = text ∧
      now - m.createdAt < 5000 ∧
      sendMessage users store sender recipient text now newId createOk =
        (SendResult.duplicate m, store, []) := by
  obtain ⟨m0, hm0, hs0, hr0, ht0, hc0⟩ := hdup
  have hsome : (findRecentDuplicate store sender recipient text now).isSome
      := by
    rw [findRecentDuplicate, List.find?_isSome]
    refine ⟨m0, hm0, ?_⟩
    simp [hs0, hr0, ht0]
    omega
  obtain ⟨m, hm⟩ := Option.isSome_iff_exists.mp hsome
  have hprops := List.find?_some hm
  simp only [decide_eq_true_eq] at hprops
  refine ⟨m, hm, hprops.1, hprops.2.1, hprops.2.2.1, by
    have := hprops.2.2.2
    omega, ?_⟩
  simp [sendMessage, hself, hrec, hm]

/-- C9 witness: a message from `s` to `r` with text `hi` created at time
1000 suppresses an identical send at time 2000. -/
theorem c9_duplicate_window_witness :
    ∃ m, findRecentDuplicate [⟨1, "s", "r", "hi", 1000, false⟩]
        "s" "r" "hi" 2000 = some m ∧
      m.sender = "s" ∧ m.recipient = "r" ∧ m.text = "hi" ∧
      (2000 : Int) - m.createdAt < 5000 ∧
      sendMessage ["r"] [⟨1, "s", "r", "hi", 1000, false⟩]
          "s" "r" "hi" 2000 7 true =
        (SendResult.duplicate m, [⟨1, "s", "r", "hi", 1000, false⟩], []) :=
  c9_duplicate_window ["r"] [⟨1, "s", "r", "hi", 1000, false⟩]
    "s" "r" "hi" 2000 7 true (by decide) (by decide)
    ⟨⟨1, "s", "r", "hi", 1000, false⟩, by decide, by decide⟩

/-! ## Claim C10 -/

/-- C10: fetching a conversation with `getMessages` mutates read state as
a side effect of the fetch: every stored message from the other user to
the current user has `read = true` afterwards (messages that were unread
get flagged, everything else is untouched), and no event whatsoever — in
particular no `message_read` fan-out to the sender's personal room — is
emitted for this mutation. -/
theorem c10_fetch_marks_read (users : List String) (store : List Message)
    (currentUserId otherUserId : String)
    (hother : otherUserId ∈ users) :
    (getMessages users store currentUserId otherUserId).2.2 = [] ∧
    (getMessages users store currentUserId otherUserId).2.1.length =
      store.length ∧
    (∀ t ∈ (getMessages users store currentUserId otherUserId).2.1,
      t.sender = otherUserId → t.recipient = currentUserId →
        t.read = true) ∧
    (∀ t ∈ store, ¬ (t.sender = otherUserId ∧ t.recipient = currentUserId)
      → t ∈ (getMessages users store currentUserId otherUserId).2.1) ∧
    (∀ t ∈ store, t.sender = otherUserId → t.recipient = currentUserId →
      { t with read := true } ∈
        (getMessages users store currentUserId otherUserId).2.1) := by
  have hstore : (getMessages users store currentUserId otherUserId).2.1 =
      store.map (fun m => if m.sender = otherUserId ∧ m.recipient = currentUserId ∧ m.read = false then { m with read := true } else m) := by
    simp [getMessages, hother]
  refine ⟨by simp [getMessages, hother], ?_, ?_, ?_, ?_⟩
  · rw [hstore]
    exact List.length_map _ _
  · intro t ht hs hr
    rw [hstore] at ht
    rcases List.mem_map.mp ht with ⟨u, hu, he⟩
    by_cases hc : u.sender = otherUserId ∧ u.recipient = currentUserId ∧
        u.read = false
    · rw [← he]
      simp [hc]
    · rw [← he] at hs hr ⊢
      simp [hc] at hs hr ⊢
      rcases Decidable.em (u.read = false) with hrd | hrd
      · exact absurd ⟨hs, hr, hrd⟩ hc
      · simpa using hrd
  · intro t ht hc
    rw [hstore]
    refine List.mem_map.mpr ⟨t, ht, ?_⟩
    have hnc : ¬ (t.sender = otherUserId ∧ t.recipient = currentUserId ∧
        t.read = false) := fun h => hc ⟨h.1, h.2.1⟩
    simp [hnc]
  · intro t ht hs hr
    rw [hstore]
    refine List.mem_map.mpr ⟨t, ht, ?_⟩
    by_cases hrd : t.read = false
    · simp [hs, hr, hrd]
    · have hread : t.read = true := by simpa using hrd
      have hnc : ¬ (t.sender = otherUserId ∧ t.recipient = currentUserId ∧
          t.read = false) := by
        intro h
        rw [hread] at h
        simp at h
      simp [hnc]
      cases t
      simp at hread
      simp [hread]

/-- C10 witness: a concrete unread message from `o` to `c` comes out of
the fetch flagged as read. -/
theorem c10_fetch_marks_read_witness :
    (⟨1, "o", "c", "hey", 0, true⟩ : Message) ∈
      (getMessages ["o"] [⟨1, "o", "c", "hey", 0, false⟩] "c" "o").2.1 :=
  (c10_fetch_marks_read ["o"] [⟨1, "o", "c", "hey", 0, false⟩] "c" "o"
    (by decide)).2.2.2.2 ⟨1, "o", "c", "hey", 0, false⟩
    (by decide) (by decide) (by decide)
